import Mathlib

/-!
Shallow embedding of `src/background/routability/NonRoutableService.ts`
(AdGuardVPNExtension): the non-routable-domain correlator, its pending-event
maps, the committed non-routable list with throttled trimmed persistence, and
the CIDR routability classifier.

Conventions of the embedding:
* JS `Map<string, HostnameData>` is modelled as an association list in
  insertion order (`HostnameMap`), with `mapHas`/`mapGet`/`mapSet`/`mapDelete`
  mirroring `has`/`get`/`set`/`delete`.
* Timestamps (`Date.now()`) are `Nat` milliseconds passed explicitly.
* Hostname extraction (`getHostname` from `common/url-utils`, not part of the
  sources at hand) and the third-party predicates (`isIP` from the `is-ip`
  package, `parse`/`kind`/`match`/`parseCIDR` from `ipaddr.js`) are taken as
  explicit function parameters: the service code only branches on their
  results.
* Observable side effects other than the service state (invocations of
  `addHostname`, `notifier.notifyListeners(NON_ROUTABLE_DOMAIN_ADDED, _)`,
  `tabs.update`) are recorded in a returned `Effect` list.
-/

/-- Pending-event record stored in the two hostname maps, mirroring
`type HostnameData = { timeAdded: number, tabId?: number, url?: string }`.
The optional fields model the possibly-absent `tabId` and `url`. -/
structure HostnameData where
  timeAdded : Nat
  tabId : Option Int := none
  url : Option String := none
  deriving DecidableEq, Repr

/-- Model of `HostnameMap = Map<string, HostnameData>`: an association list in
insertion order with unique keys maintained by `mapSet`. -/
abbrev HostnameMap := List (String × HostnameData)

/-- JS truthiness of the optional numeric `tabId` field: `undefined` and `0`
are falsy, every other number is truthy. -/
def truthyTabId : Option Int → Bool
  | none => false
  | some n => n != 0

/-- JS truthiness of the optional string `url` field: `undefined` and the
empty string are falsy. -/
def truthyUrl : Option String → Bool
  | none => false
  | some u => u != ""

/-- Model of `Map.prototype.has`. -/
def mapHas (k : String) (m : HostnameMap) : Bool :=
  m.any (fun p => p.1 = k)

/-- Model of `Map.prototype.get` (`undefined` becomes `none`). -/
def mapGet (k : String) (m : HostnameMap) : Option HostnameData :=
  (m.find? (fun p => p.1 = k)).map Prod.snd

/-- Model of `Map.prototype.delete` (result map only). -/
def mapDelete (k : String) (m : HostnameMap) : HostnameMap :=
  m.filter (fun p => p.1 ≠ k)

/-- Model of `Map.prototype.set`: replaces the value in place when the key is
present, otherwise appends the new entry at the end (JS insertion order). -/
def mapSet (k : String) (v : HostnameData) (m : HostnameMap) : HostnameMap :=
  if mapHas k m then m.map (fun p => if p.1 = k then (k, v) else p)
  else m ++ [(k, v)]

/-- Constant `NON_ROUTABLE_MAX_LENGTH = 1000` of `NonRoutableService`. -/
def NON_ROUTABLE_MAX_LENGTH : Nat := 1000

/-- Constant `CLEAR_CAPACITY = 50` of `NonRoutableService`. -/
def CLEAR_CAPACITY : Nat := 50

/-- Constant `LOCALHOST = 'localhost'` of `NonRoutableService`. -/
def LOCALHOST : String := "localhost"

/-- Constant `VALUE_TTL_MS = 1000` local to `clearStaleValues`. -/
def VALUE_TTL_MS : Nat := 1000

/-- Constant `MAIN_FRAME = 'main_frame'` local to `handleWebRequestErrors`. -/
def MAIN_FRAME : String := "main_frame"

/-- Constant `ERROR = 'net::ERR_TUNNEL_CONNECTION_FAILED'` local to
`handleWebRequestErrors`. -/
def ERROR : String := "net::ERR_TUNNEL_CONNECTION_FAILED"

/-- Constant `STATUS_CODE = 502` local to `handleWebRequestErrors`. -/
def STATUS_CODE : Int := 502

/-- A parsed CIDR range as produced by `ipaddr.parseCIDR(net)`: a base
address (kept in its textual form) together with a prefix length. -/
structure CIDRRange where
  base : String
  prefixLen : Nat
  deriving DecidableEq, Repr

/-- Mutable state of a `NonRoutableService` instance: the committed
`nonRoutableList`, the two pending-event maps, and the `parsedCIDRList`
computed by the constructor. -/
structure ServiceState where
  nonRoutableList : List String := []
  webRequestErrorHostnames : HostnameMap := []
  nonRoutableHostnames : HostnameMap := []
  parsedCIDRList : List CIDRRange := []
  deriving DecidableEq, Repr

/-- Observable effects of the service besides its own state: an invocation of
`addHostname`, a broadcast of the `NON_ROUTABLE_DOMAIN_ADDED` notifier event
carrying the hostname, and a `tabs.update(tabId, url)` retry action. -/
inductive Effect where
  | addHostnameCall : String → Effect
  | notifyAdded : String → Effect
  | tabsUpdate : Int → String → Effect
  deriving DecidableEq, Repr

/-- Number of `addHostname` invocations for hostname `h` recorded in an
effect list. -/
def addHostnameCallCount (h : String) (es : List Effect) : Nat :=
  (es.filter (fun e => e = Effect.addHostnameCall h)).length

/-- Number of `NON_ROUTABLE_DOMAIN_ADDED` notifications carrying `h` recorded
in an effect list. -/
def notifyAddedCount (h : String) (es : List Effect) : Nat :=
  (es.filter (fun e => e = Effect.notifyAdded h)).length

/-- Number of `tabs.update` retry actions recorded in an effect list. -/
def tabsUpdateCount (es : List Effect) : Nat :=
  (es.filter (fun e => match e with
    | Effect.tabsUpdate _ _ => true
    | _ => false)).length

/-- Embedding of `getByHostname(hostname, storage)`: looks the hostname up
and, when present, deletes the entry; returns the removed value (the stored
records are objects, hence always truthy) together with the updated map. -/
def getByHostname (hostname : String) (storage : HostnameMap) :
    Option HostnameData × HostnameMap :=
  if mapHas hostname storage then
    (mapGet hostname storage, mapDelete hostname storage)
  else
    (none, storage)

/-- Model of the JS expression `Object.keys(storage)` where `storage` is a
`Map`: `Object.keys` enumerates an object's own enumerable string-keyed
properties, and a `Map` keeps its entries in internal slots rather than as
properties, so for every `Map` the result is the empty array. -/
def objectKeys (_storage : HostnameMap) : List String := []

/-- Embedding of `clearStaleValues(storage)` at current time `now`: iterates
over `Object.keys(storage)` and deletes every key whose record's `timeAdded`
is older than `VALUE_TTL_MS`. Since `objectKeys` of a `Map` is empty, the
fold visits no key. -/
def clearStaleValues (now : Nat) (storage : HostnameMap) : HostnameMap :=
  (objectKeys storage).foldl
    (fun st key =>
      match mapGet key st with
      | some value => if value.timeAdded < now - VALUE_TTL_MS then mapDelete key st else st
      | none => st)
    storage

/-- Embedding of `addHostname(hostname)`: appends the hostname to
`nonRoutableList` unless already present (then schedules the throttled
`updateStorage`; the trimming it performs is `updateStorage` below). It
broadcasts nothing itself. -/
def addHostname (hostname : String) (s : ServiceState) : ServiceState :=
  if hostname ∈ s.nonRoutableList then s
  else { s with nonRoutableList := s.nonRoutableList ++ [hostname] }

/-- Embedding of `addNewNonRoutableDomain(hostname)`: invokes
`addHostname(hostname)` and broadcasts one `NON_ROUTABLE_DOMAIN_ADDED`
notification carrying the hostname. -/
def addNewNonRoutableDomain (hostname : String) (s : ServiceState) :
    ServiceState × List Effect :=
  (addHostname hostname s,
   [Effect.addHostnameCall hostname, Effect.notifyAdded hostname])

/-- Embedding of the trimming loop at the head of `updateStorage`:
`while (list.length > NON_ROUTABLE_MAX_LENGTH) list = list.slice(CLEAR_CAPACITY)`. -/
def updateStorageTrim (l : List String) : List String :=
  if h : NON_ROUTABLE_MAX_LENGTH < l.length then
    updateStorageTrim (l.drop CLEAR_CAPACITY)
  else l
termination_by l.length
decreasing_by
  simp only [List.length_drop, NON_ROUTABLE_MAX_LENGTH, CLEAR_CAPACITY] at *
  omega

/-- Embedding of the state change performed by one run of the throttled
`updateStorage` (the subsequent `storage.set` persists the same list). -/
def updateStorage (s : ServiceState) : ServiceState :=
  { s with nonRoutableList := updateStorageTrim s.nonRoutableList }

/-- Embedding of `handleNonRoutableDomains(nonRoutableDomain)` at current
time `now`, parameterized by the hostname extractor `gh`. -/
def handleNonRoutableDomains (gh : String → Option String) (now : Nat)
    (nonRoutableDomain : String) (s : ServiceState) :
    ServiceState × List Effect :=
  if nonRoutableDomain = "" then (s, [])
  else
    match gh nonRoutableDomain with
    | none => (s, [])
    | some hostname =>
      let lookup := getByHostname hostname s.webRequestErrorHostnames
      let s1 : ServiceState := { s with webRequestErrorHostnames := lookup.2 }
      match lookup.1 with
      | some webRequestError =>
        if truthyTabId webRequestError.tabId && truthyUrl webRequestError.url then
          let committed := addNewNonRoutableDomain hostname s1
          ({ committed.1 with
              nonRoutableHostnames := clearStaleValues now committed.1.nonRoutableHostnames },
           committed.2 ++
             [Effect.tabsUpdate (webRequestError.tabId.getD 0) (webRequestError.url.getD "")])
        else
          let s2 := { s1 with
            nonRoutableHostnames := mapSet hostname { timeAdded := now } s1.nonRoutableHostnames }
          ({ s2 with nonRoutableHostnames := clearStaleValues now s2.nonRoutableHostnames }, [])
      | none =>
        let s2 := { s1 with
          nonRoutableHostnames := mapSet hostname { timeAdded := now } s1.nonRoutableHostnames }
        ({ s2 with nonRoutableHostnames := clearStaleValues now s2.nonRoutableHostnames }, [])

/-- Event payload consumed by `handleWebRequestErrors`: the union of
`OnErrorOccurredDetailsType` and `OnHeadersReceivedDetailsType` fields read by
the handler. `requestType` embeds the source field `type`; `statusCode` and
`error` are `none` when absent on the concrete event shape. -/
structure RequestDetails where
  url : String
  requestType : String
  tabId : Int
  statusCode : Option Int := none
  error : Option String := none
  deriving DecidableEq, Repr

/-- Embedding of `handleWebRequestErrors(details)` at current time `now`,
parameterized by the hostname extractor `gh`. -/
def handleWebRequestErrors (gh : String → Option String) (now : Nat)
    (details : RequestDetails) (s : ServiceState) :
    ServiceState × List Effect :=
  if (details.error = some ERROR ∨ details.statusCode = some STATUS_CODE)
      ∧ details.requestType = MAIN_FRAME then
    match gh details.url with
    | none => (s, [])
    | some hostname =>
      let lookup := getByHostname hostname s.nonRoutableHostnames
      let s1 : ServiceState := { s with nonRoutableHostnames := lookup.2 }
      match lookup.1 with
      | some _ =>
        let committed := addNewNonRoutableDomain hostname s1
        ({ committed.1 with
            webRequestErrorHostnames := clearStaleValues now committed.1.webRequestErrorHostnames },
         committed.2 ++ [Effect.tabsUpdate details.tabId details.url])
      | none =>
        let s2 := { s1 with
          webRequestErrorHostnames :=
            mapSet hostname { timeAdded := now, tabId := some details.tabId, url := some details.url }
              s1.webRequestErrorHostnames }
        ({ s2 with webRequestErrorHostnames := clearStaleValues now s2.webRequestErrorHostnames },
         [])
  else (s, [])

/-- Address kind as returned by `ipaddr.parse(hostname).kind()`. -/
inductive IPKind where
  | ipv4
  | ipv6
  deriving DecidableEq, Repr

/-- Embedding of `isUrlRoutable(url)`, parameterized by the hostname
extractor `gh`, the syntactic IP test `isIP`, the parsed address kind
`ipKind`, and the CIDR membership test `cidrMatch` (the `addr.match(cidr)`
of `ipaddr.js`, applied to the textual address). -/
def isUrlRoutable (gh : String → Option String) (isIP : String → Bool)
    (ipKind : String → IPKind) (cidrMatch : String → CIDRRange → Bool)
    (s : ServiceState) (url : String) : Bool :=
  match gh url with
  | none => true
  | some hostname =>
    if hostname = LOCALHOST ∨ hostname ∈ s.nonRoutableList then false
    else if isIP hostname = false then true
    else if ipKind hostname = IPKind.ipv6 then true
    else !(s.parsedCIDRList.any (fun parsedCIDR => cidrMatch hostname parsedCIDR))

/-- State-passing form of `isUrlRoutable`: the source body consists solely of
reads (`getHostname`, `includes`, `isIP`, `ipaddr.parse`, `some`/`match`) and
performs no assignment, no map mutation and no call into `notifier`, `tabs`
or `updateStorage`, so executing it threads the state through unchanged and
emits no effect. -/
def isUrlRoutableRun (gh : String → Option String) (isIP : String → Bool)
    (ipKind : String → IPKind) (cidrMatch : String → CIDRRange → Bool)
    (s : ServiceState) (url : String) : Bool × ServiceState × List Effect :=
  (isUrlRoutable gh isIP ipKind cidrMatch s url, s, [])

/-- Embedding of `NON_ROUTABLE_CIDR_NETS.map((net) => ipaddr.parseCIDR(net))`
in the constructor, where a parse failure throws: the whole construction
fails (`none`) as soon as any entry fails to parse, and otherwise yields the
parses of all entries in order. -/
def parseCIDRNets (parseCIDR : String → Option CIDRRange) :
    List String → Option (List CIDRRange)
  | [] => some []
  | net :: rest =>
    match parseCIDR net, parseCIDRNets parseCIDR rest with
    | some c, some cs => some (c :: cs)
    | _, _ => none

/-- Embedding of the `NonRoutableService` constructor over a configured net
list: succeeds with an initial state holding the fully parsed
`parsedCIDRList`, or fails when any configured range fails to parse. -/
def constructService (parseCIDR : String → Option CIDRRange)
    (nets : List String) : Option ServiceState :=
  (parseCIDRNets parseCIDR nets).map (fun parsed => { parsedCIDRList := parsed })

/-! ### Helper lemmas about the map model and the handlers -/

/-- The staleness sweep leaves every map unchanged: `Object.keys` of a `Map`
is empty, so the fold visits no key. -/
theorem clearStaleValues_eq_id (now : Nat) (m : HostnameMap) :
    clearStaleValues now m = m := rfl

theorem getByHostname_of_not_has (h : String) (m : HostnameMap)
    (hm : mapHas h m = false) : getByHostname h m = (none, m) := by
  simp [getByHostname, hm]

theorem mapHas_of_get (h : String) (m : HostnameMap) (v : HostnameData)
    (hv : mapGet h m = some v) : mapHas h m = true := by
  unfold mapGet at hv
  unfold mapHas
  cases hfind : m.find? (fun p => p.1 = h) with
  | none => rw [hfind] at hv; simp at hv
  | some q =>
    have hq := List.find?_some hfind
    have hmem := List.mem_of_find?_eq_some hfind
    simp only [List.any_eq_true]
    exact ⟨q, hmem, hq⟩

theorem getByHostname_of_get (h : String) (m : HostnameMap) (v : HostnameData)
    (hv : mapGet h m = some v) :
    getByHostname h m = (some v, mapDelete h m) := by
  simp [getByHostname, mapHas_of_get h m v hv, hv]

theorem mapSet_of_not_has (h : String) (v : HostnameData) (m : HostnameMap)
    (hm : mapHas h m = false) : mapSet h v m = m ++ [(h, v)] := by
  simp [mapSet, hm]

theorem mapGet_append_self (h : String) (v : HostnameData) (m : HostnameMap)
    (hm : mapHas h m = false) : mapGet h (m ++ [(h, v)]) = some v := by
  unfold mapGet
  rw [List.find?_append]
  have hnone : m.find? (fun p => decide (p.1 = h)) = none := by
    rw [List.find?_eq_none]
    intro x hx hpx
    unfold mapHas at hm
    have : m.any (fun p => p.1 = h) = true := by
      simp only [List.any_eq_true]
      exact ⟨x, hx, hpx⟩
    rw [this] at hm
    exact Bool.noConfusion hm
  rw [hnone]
  simp

/-- Report handler, no pending transport failure: stores the hostname with
the current time in the report map and commits nothing. -/
theorem handleNonRoutableDomains_no_match (gh : String → Option String)
    (now : Nat) (d h : String) (s : ServiceState)
    (hd : d ≠ "") (hgh : gh d = some h)
    (hw : mapHas h s.webRequestErrorHostnames = false) :
    handleNonRoutableDomains gh now d s =
      ({ s with nonRoutableHostnames :=
          mapSet h { timeAdded := now } s.nonRoutableHostnames }, []) := by
  unfold handleNonRoutableDomains
  rw [if_neg hd, hgh]
  simp only [getByHostname_of_not_has h s.webRequestErrorHostnames hw,
    clearStaleValues_eq_id]

/-- Report handler, pending transport failure with truthy `tabId` and `url`:
consumes the pending entry, commits the hostname and fires the retry with the
stored tab id and url. -/
theorem handleNonRoutableDomains_match_truthy (gh : String → Option String)
    (now : Nat) (d h : String) (s : ServiceState) (data : HostnameData)
    (hd : d ≠ "") (hgh : gh d = some h)
    (hget : mapGet h s.webRequestErrorHostnames = some data)
    (htruthy : (truthyTabId data.tabId && truthyUrl data.url) = true) :
    handleNonRoutableDomains gh now d s =
      (addHostname h
        { s with webRequestErrorHostnames := mapDelete h s.webRequestErrorHostnames },
       [Effect.addHostnameCall h, Effect.notifyAdded h,
        Effect.tabsUpdate (data.tabId.getD 0) (data.url.getD "")]) := by
  unfold handleNonRoutableDomains
  rw [if_neg hd, hgh]
  simp only [getByHostname_of_get h s.webRequestErrorHostnames data hget,
    htruthy, if_pos, addNewNonRoutableDomain, clearStaleValues_eq_id]
  rfl

/-- Report handler, pending transport failure whose stored `tabId` or `url`
is falsy: the pending entry is consumed, nothing is committed and no retry
fires; the hostname is re-inserted into the report map instead. -/
theorem handleNonRoutableDomains_match_falsy (gh : String → Option String)
    (now : Nat) (d h : String) (s : ServiceState) (data : HostnameData)
    (hd : d ≠ "") (hgh : gh d = some h)
    (hget : mapGet h s.webRequestErrorHostnames = some data)
    (hfalsy : (truthyTabId data.tabId && truthyUrl data.url) = false) :
    handleNonRoutableDomains gh now d s =
      ({ s with
          webRequestErrorHostnames := mapDelete h s.webRequestErrorHostnames,
          nonRoutableHostnames :=
            mapSet h { timeAdded := now } s.nonRoutableHostnames }, []) := by
  unfold handleNonRoutableDomains
  rw [if_neg hd, hgh]
  simp only [getByHostname_of_get h s.webRequestErrorHostnames data hget,
    hfalsy, Bool.false_eq_true, if_false, clearStaleValues_eq_id]

/-- Transport-failure handler with satisfied trigger, no pending report:
stores the hostname with time, tab id and url in the transport-failure map
and commits nothing. -/
theorem handleWebRequestErrors_no_match (gh : String → Option String)
    (now : Nat) (h : String) (details : RequestDetails) (s : ServiceState)
    (htrig : details.error = some ERROR ∨ details.statusCode = some STATUS_CODE)
    (htype : details.requestType = MAIN_FRAME)
    (hgh : gh details.url = some h)
    (hn : mapHas h s.nonRoutableHostnames = false) :
    handleWebRequestErrors gh now details s =
      ({ s with
          webRequestErrorHostnames :=
            mapSet h ⟨now, some details.tabId, some details.url⟩ s.webRequestErrorHostnames },
       []) := by
  unfold handleWebRequestErrors
  rw [if_pos ⟨htrig, htype⟩, hgh]
  simp only [getByHostname_of_not_has h s.nonRoutableHostnames hn,
    clearStaleValues_eq_id]

/-- Transport-failure handler with satisfied trigger and a pending report:
the pending entry is consumed (a stored record is always truthy), the
hostname is committed and the retry fires with the event's own tab id and
url. -/
theorem handleWebRequestErrors_match (gh : String → Option String)
    (now : Nat) (h : String) (details : RequestDetails) (s : ServiceState)
    (data : HostnameData)
    (htrig : details.error = some ERROR ∨ details.statusCode = some STATUS_CODE)
    (htype : details.requestType = MAIN_FRAME)
    (hgh : gh details.url = some h)
    (hget : mapGet h s.nonRoutableHostnames = some data) :
    handleWebRequestErrors gh now details s =
      (addHostname h
        { s with nonRoutableHostnames := mapDelete h s.nonRoutableHostnames },
       [Effect.addHostnameCall h, Effect.notifyAdded h,
        Effect.tabsUpdate details.tabId details.url]) := by
  unfold handleWebRequestErrors
  rw [if_pos ⟨htrig, htype⟩, hgh]
  simp only [getByHostname_of_get h s.nonRoutableHostnames data hget,
    addNewNonRoutableDomain, clearStaleValues_eq_id]
  rfl

/-- The trimming loop only ever removes a prefix: its result is a suffix of
its input. -/
theorem updateStorageTrim_suffix (l : List String) :
    updateStorageTrim l <:+ l := by
  induction l using updateStorageTrim.induct with
  | case1 l hlt ih =>
    rw [updateStorageTrim, dif_pos hlt]
    exact ih.trans (List.drop_suffix _ _)
  | case2 l hlt =>
    rw [updateStorageTrim, dif_neg hlt]

/-- The trimming loop runs until the list length is at most
`NON_ROUTABLE_MAX_LENGTH`. -/
theorem updateStorageTrim_length (l : List String) :
    (updateStorageTrim l).length ≤ NON_ROUTABLE_MAX_LENGTH := by
  induction l using updateStorageTrim.induct with
  | case1 l hlt ih =>
    rw [updateStorageTrim, dif_pos hlt]
    exact ih
  | case2 l hlt =>
    rw [updateStorageTrim, dif_neg hlt]
    omega

/-- The trimming loop removes the oldest entries in whole
`CLEAR_CAPACITY`-sized chunks: the result is the input with some multiple of
`CLEAR_CAPACITY` oldest entries dropped. -/
theorem updateStorageTrim_eq_drop (l : List String) :
    ∃ k, updateStorageTrim l = l.drop (CLEAR_CAPACITY * k) := by
  induction l using updateStorageTrim.induct with
  | case1 l hlt ih =>
    obtain ⟨k, hk⟩ := ih
    refine ⟨k + 1, ?_⟩
    rw [updateStorageTrim, dif_pos hlt, hk, List.drop_drop, Nat.mul_succ,
      Nat.add_comm (CLEAR_CAPACITY * k) CLEAR_CAPACITY]
  | case2 l hlt =>
    exact ⟨0, by rw [updateStorageTrim, dif_neg hlt]; simp⟩

/-- Adding a hostname already present leaves the state unchanged. -/
theorem addHostname_of_mem (h : String) (s : ServiceState)
    (hm : h ∈ s.nonRoutableList) : addHostname h s = s := by
  unfold addHostname
  rw [if_pos hm]

/-- Adding a hostname not yet present appends it at the end. -/
theorem addHostname_of_not_mem (h : String) (s : ServiceState)
    (hm : h ∉ s.nonRoutableList) :
    (addHostname h s).nonRoutableList = s.nonRoutableList ++ [h] := by
  unfold addHostname
  rw [if_neg hm]

/-- The added hostname is a member of the resulting list. -/
theorem addHostname_mem (h : String) (s : ServiceState) :
    h ∈ (addHostname h s).nonRoutableList := by
  unfold addHostname
  split
  · assumption
  · simp

/-- Adding preserves freedom from duplicates. -/
theorem addHostname_nodup (h : String) (s : ServiceState)
    (hnd : s.nonRoutableList.Nodup) :
    (addHostname h s).nonRoutableList.Nodup := by
  unfold addHostname
  split
  · exact hnd
  · next hm => simp [List.nodup_append, hnd, hm]

/-- Folding `addHostname` over pairwise-distinct hostnames that are all new
appends them in order. -/
theorem foldl_addHostname_list (hs : List String) (s : ServiceState)
    (hdisj : ∀ x ∈ hs, x ∉ s.nonRoutableList) (hnd : hs.Nodup) :
    (hs.foldl (fun st h => addHostname h st) s).nonRoutableList
      = s.nonRoutableList ++ hs := by
  induction hs generalizing s with
  | nil => simp
  | cons a rest ih =>
    have ha : a ∉ s.nonRoutableList := hdisj a (by simp)
    have h1 : (addHostname a s).nonRoutableList = s.nonRoutableList ++ [a] :=
      addHostname_of_not_mem a s ha
    have hrest : ∀ x ∈ rest, x ∉ (addHostname a s).nonRoutableList := by
      intro x hx
      rw [h1]
      simp only [List.mem_append, List.mem_singleton]
      rintro (hxs | hxa)
      · exact hdisj x (List.mem_cons_of_mem a hx) hxs
      · subst hxa
        exact (List.nodup_cons.mp hnd).1 hx
    simp only [List.foldl_cons]
    rw [ih (addHostname a s) hrest (List.Nodup.of_cons hnd), h1]
    simp

/-! ### Concrete sample collaborators for closed instances -/

/-- Concrete hostname extractor used in the closed instances below: a finite
table mapping the sample URLs to their hostnames, failing on anything else. -/
def ghSample : String → Option String := fun u =>
  if u = "http://pend.test/" then some "pend.test"
  else if u = "http://b.test/" then some "b.test"
  else if u = "http://pend0.test/" then some "pend0.test"
  else if u = "http://127.0.0.1/" then some "127.0.0.1"
  else if u = "http://example.com/" then some "example.com"
  else none

/-- Claim C2 fails on the code. The report map holds the pending entry
"a.test" of age 5000 ms (the TTL is 1000 ms); inserting the unrelated
hostname "b.test" triggers `clearStaleValues`, yet the stale entry survives,
because `Object.keys` applied to a JS `Map` always yields the empty array,
so the sweep deletes nothing. -/
theorem claim_C2_stale_sweep_never_deletes :
    (handleNonRoutableDomains ghSample 5000 "http://b.test/"
        { nonRoutableHostnames := [("a.test", ⟨0, none, none⟩)] }).1.nonRoutableHostnames
      = [("a.test", ⟨0, none, none⟩), ("b.test", ⟨5000, none, none⟩)] := by
  rfl

/-- Claim C6: adding is idempotent — a second `addHostname(h)` is a no-op on
the whole state, the list then contains `h` exactly once (given the
no-duplicate invariant), and a committing `addNewNonRoutableDomain(h)`
broadcasts exactly one notification, carrying that hostname. -/
theorem claim_C6_addHostname_idempotent (h : String) (s : ServiceState)
    (hnd : s.nonRoutableList.Nodup) :
    addHostname h (addHostname h s) = addHostname h s ∧
    (addHostname h (addHostname h s)).nonRoutableList.count h = 1 ∧
    notifyAddedCount h (addNewNonRoutableDomain h s).2 = 1 := by
  have hidem := addHostname_of_mem h (addHostname h s) (addHostname_mem h s)
  refine ⟨hidem, ?_, ?_⟩
  · rw [hidem]
    exact List.count_eq_one_of_mem (addHostname_nodup h s hnd) (addHostname_mem h s)
  · simp [notifyAddedCount, addNewNonRoutableDomain]

/-- Closed instance of claim C6 at hostname "a.test" on the empty state. -/
theorem claim_C6_witness :
    addHostname "a.test" (addHostname "a.test" {}) = addHostname "a.test" {} ∧
    (addHostname "a.test" (addHostname "a.test" {})).nonRoutableList.count "a.test" = 1 ∧
    notifyAddedCount "a.test" (addNewNonRoutableDomain "a.test" {}).2 = 1 :=
  claim_C6_addHostname_idempotent "a.test" {} List.nodup_nil

/-- Any failing net makes the whole of `parseCIDRNets` fail. -/
theorem parseCIDRNets_none_of_fail (parseCIDR : String → Option CIDRRange)
    (nets : List String) (net : String) (hmem : net ∈ nets)
    (hfail : parseCIDR net = none) :
    parseCIDRNets parseCIDR nets = none := by
  induction nets with
  | nil => cases hmem
  | cons a rest ih =>
    rcases List.mem_cons.mp hmem with rfl | hmem2
    · unfold parseCIDRNets
      rw [hfail]
    · unfold parseCIDRNets
      rw [ih hmem2]
      cases parseCIDR a <;> rfl

/-- A successful `parseCIDRNets` has parsed every net, and every parse is in
the result. -/
theorem parseCIDRNets_some_all (parseCIDR : String → Option CIDRRange)
    (nets : List String) (cs : List CIDRRange)
    (hsome : parseCIDRNets parseCIDR nets = some cs) :
    ∀ net ∈ nets, ∃ c, parseCIDR net = some c ∧ c ∈ cs := by
  induction nets generalizing cs with
  | nil =>
    intro net hmem
    cases hmem
  | cons a rest ih =>
    intro net hmem
    unfold parseCIDRNets at hsome
    cases hpa : parseCIDR a with
    | none =>
      rw [hpa] at hsome
      simp at hsome
    | some c =>
      rw [hpa] at hsome
      cases hrest : parseCIDRNets parseCIDR rest with
      | none =>
        rw [hrest] at hsome
        simp at hsome
      | some cs2 =>
        rw [hrest] at hsome
        simp only [Option.some.injEq] at hsome
        subst hsome
        rcases List.mem_cons.mp hmem with rfl | hmem2
        · exact ⟨c, hpa, by simp⟩
        · obtain ⟨c2, hc2, hmemc⟩ := ih cs2 hrest net hmem2
          exact ⟨c2, hc2, by simp [hmemc]⟩

/-- Claim C7: a malformed configured range makes service construction fail
loudly, and every successfully constructed service has parsed all configured
ranges — none is silently ignored. -/
theorem claim_C7_construction_parses_all (parseCIDR : String → Option CIDRRange)
    (nets : List String) :
    ((∃ net ∈ nets, parseCIDR net = none) → constructService parseCIDR nets = none) ∧
    (∀ s, constructService parseCIDR nets = some s →
      ∀ net ∈ nets, ∃ c, parseCIDR net = some c ∧ c ∈ s.parsedCIDRList) := by
  constructor
  · rintro ⟨net, hmem, hfail⟩
    unfold constructService
    rw [parseCIDRNets_none_of_fail parseCIDR nets net hmem hfail]
    rfl
  · intro s hs net hmem
    unfold constructService at hs
    cases hp : parseCIDRNets parseCIDR nets with
    | none =>
      rw [hp] at hs
      simp at hs
    | some cs =>
      rw [hp] at hs
      simp only [Option.map_some', Option.some.injEq] at hs
      subst hs
      exact parseCIDRNets_some_all parseCIDR nets cs hp net hmem

/-- Concrete CIDR parser table for the closed instances: parses the two real
configured nets it knows and fails on anything else. -/
def parseCIDRSample : String → Option CIDRRange := fun net =>
  if net = "10.0.0.0/8" then some ⟨"10.0.0.0", 8⟩
  else if net = "127.0.0.0/8" then some ⟨"127.0.0.0", 8⟩
  else none

/-- Closed instance of claim C7: a config list with one malformed entry makes
construction fail, and construction from well-formed entries parses both. -/
theorem claim_C7_witness :
    constructService parseCIDRSample ["10.0.0.0/8", "badnet"] = none ∧
    ∃ c, parseCIDRSample "127.0.0.0/8" = some c ∧
      c ∈ ({ parsedCIDRList := [⟨"10.0.0.0", 8⟩, ⟨"127.0.0.0", 8⟩] } : ServiceState).parsedCIDRList :=
  ⟨(claim_C7_construction_parses_all parseCIDRSample ["10.0.0.0/8", "badnet"]).1
      ⟨"badnet", by simp, by rfl⟩,
   (claim_C7_construction_parses_all parseCIDRSample ["10.0.0.0/8", "127.0.0.0/8"]).2
      { parsedCIDRList := [⟨"10.0.0.0", 8⟩, ⟨"127.0.0.0", 8⟩] } (by rfl)
      "127.0.0.0/8" (by simp)⟩

/-- Claim C8: both handlers are silent no-ops — state and effects untouched —
when their preconditions fail: the report handler on empty input or failed
hostname extraction; the transport-failure handler when the event is not a
main-frame request with a tunnel-failure error or a 502 status, or when
hostname extraction from its URL fails. -/
theorem claim_C8_handlers_silent_noop (gh : String → Option String) (now : Nat)
    (d : String) (details : RequestDetails) (s : ServiceState) :
    ((d = "" ∨ gh d = none) → handleNonRoutableDomains gh now d s = (s, [])) ∧
    (¬ ((details.error = some ERROR ∨ details.statusCode = some STATUS_CODE)
        ∧ details.requestType = MAIN_FRAME) →
      handleWebRequestErrors gh now details s = (s, [])) ∧
    (gh details.url = none → handleWebRequestErrors gh now details s = (s, [])) := by
  refine ⟨?_, ?_, ?_⟩
  · rintro (hd | hgh)
    · unfold handleNonRoutableDomains
      rw [if_pos hd]
    · unfold handleNonRoutableDomains
      split
      · rfl
      · rw [hgh]
  · intro htrig
    unfold handleWebRequestErrors
    rw [if_neg htrig]
  · intro hgh
    unfold handleWebRequestErrors
    split
    · rw [hgh]
    · rfl

/-- Closed instance of claim C8: empty report input; a sub-frame 502 event;
a main-frame 502 event whose URL has no extractable hostname. -/
theorem claim_C8_witness :
    handleNonRoutableDomains ghSample 0 "" {} = ({}, []) ∧
    handleWebRequestErrors ghSample 0 ⟨"http://pend.test/", "sub_frame", 7, some 502, none⟩ {}
      = ({}, []) ∧
    handleWebRequestErrors ghSample 0 ⟨"http://unknown.test/", "main_frame", 7, some 502, none⟩ {}
      = ({}, []) :=
  ⟨(claim_C8_handlers_silent_noop ghSample 0 ""
      ⟨"http://pend.test/", "sub_frame", 7, some 502, none⟩ {}).1 (Or.inl rfl),
   (claim_C8_handlers_silent_noop ghSample 0 ""
      ⟨"http://pend.test/", "sub_frame", 7, some 502, none⟩ {}).2.1 (by decide),
   (claim_C8_handlers_silent_noop ghSample 0 ""
      ⟨"http://unknown.test/", "main_frame", 7, some 502, none⟩ {}).2.2 (by decide)⟩

/-- Claim C9: `isUrlRoutable` has no side effects — running it returns every
piece of the service state unchanged and records no flush, notification,
retry or any other effect. -/
theorem claim_C9_isUrlRoutable_pure (gh : String → Option String)
    (isIP : String → Bool) (ipKind : String → IPKind)
    (cidrMatch : String → CIDRRange → Bool) (s : ServiceState) (url : String) :
    (isUrlRoutableRun gh isIP ipKind cidrMatch s url).2.1 = s ∧
    (isUrlRoutableRun gh isIP ipKind cidrMatch s url).2.2 = ([] : List Effect) :=
  ⟨rfl, rfl⟩

/-- Claim C10: a pending transport-failure entry whose stored `tabId` or
`url` is falsy is consumed by the report lookup, yet nothing is committed:
no `addHostname` invocation, no notification, no retry; the hostname is
instead inserted into the report map with the current time, so the matched
pair is lost. -/
theorem claim_C10_falsy_pending_pair_lost (gh : String → Option String)
    (now : Nat) (d h : String) (s : ServiceState) (data : HostnameData)
    (hd : d ≠ "") (hgh : gh d = some h)
    (hget : mapGet h s.webRequestErrorHostnames = some data)
    (hfalsy : truthyTabId data.tabId = false ∨ truthyUrl data.url = false) :
    handleNonRoutableDomains gh now d s =
      ({ s with
          webRequestErrorHostnames := mapDelete h s.webRequestErrorHostnames,
          nonRoutableHostnames := mapSet h { timeAdded := now } s.nonRoutableHostnames },
       []) := by
  apply handleNonRoutableDomains_match_falsy gh now d h s data hd hgh hget
  rcases hfalsy with hf | hf <;> simp [hf]

/-- Closed instance of claim C10: a pending entry for "pend.test" stored with
the falsy tab id `0`; the subsequent report consumes it without commit or
retry. -/
theorem claim_C10_witness :
    handleNonRoutableDomains ghSample 100 "http://pend.test/"
        { webRequestErrorHostnames := [("pend.test", ⟨0, some 0, some "http://pend.test/"⟩)] } =
      ({ webRequestErrorHostnames :=
           mapDelete "pend.test" [("pend.test", ⟨0, some 0, some "http://pend.test/"⟩)],
         nonRoutableHostnames := mapSet "pend.test" { timeAdded := 100 } [] },
       []) :=
  claim_C10_falsy_pending_pair_lost ghSample 100 "http://pend.test/" "pend.test"
    { webRequestErrorHostnames := [("pend.test", ⟨0, some 0, some "http://pend.test/"⟩)] }
    ⟨0, some 0, some "http://pend.test/"⟩
    (by decide) rfl rfl (Or.inl rfl)

/-- Claim C3: the decision sequence of `isUrlRoutable` — fail-open when
hostname extraction fails; loopback or already-listed hostnames are
non-routable; non-IP hostnames are routable; IPv6 literals are routable
regardless of the configured ranges; an IPv4 literal is non-routable exactly
when at least one configured CIDR range matches it. -/
theorem claim_C3_isUrlRoutable_decision (gh : String → Option String)
    (isIP : String → Bool) (ipKind : String → IPKind)
    (cidrMatch : String → CIDRRange → Bool) (s : ServiceState) (url : String) :
    (gh url = none → isUrlRoutable gh isIP ipKind cidrMatch s url = true) ∧
    (∀ h, gh url = some h → (h = LOCALHOST ∨ h ∈ s.nonRoutableList) →
      isUrlRoutable gh isIP ipKind cidrMatch s url = false) ∧
    (∀ h, gh url = some h → ¬ (h = LOCALHOST ∨ h ∈ s.nonRoutableList) →
      isIP h = false → isUrlRoutable gh isIP ipKind cidrMatch s url = true) ∧
    (∀ h, gh url = some h → ¬ (h = LOCALHOST ∨ h ∈ s.nonRoutableList) →
      isIP h = true → ipKind h = IPKind.ipv6 →
      isUrlRoutable gh isIP ipKind cidrMatch s url = true) ∧
    (∀ h, gh url = some h → ¬ (h = LOCALHOST ∨ h ∈ s.nonRoutableList) →
      isIP h = true → ipKind h ≠ IPKind.ipv6 →
      (isUrlRoutable gh isIP ipKind cidrMatch s url = false ↔
        ∃ c ∈ s.parsedCIDRList, cidrMatch h c = true)) := by
  refine ⟨?_, ?_, ?_, ?_, ?_⟩
  · intro hgh
    unfold isUrlRoutable
    rw [hgh]
  · intro h hgh hcond
    unfold isUrlRoutable
    rw [hgh]
    simp [hcond]
  · intro h hgh hcond hip
    unfold isUrlRoutable
    rw [hgh]
    simp [hcond, hip]
  · intro h hgh hcond hip hkind
    unfold isUrlRoutable
    rw [hgh]
    simp [hcond, hip, hkind]
  · intro h hgh hcond hip hkind
    unfold isUrlRoutable
    rw [hgh]
    simp [hcond, hip, hkind, List.any_eq_true]

/-- Concrete syntactic-IP test for the closed classifier instance. -/
def isIPSample : String → Bool := fun hn => hn = "127.0.0.1"

/-- Concrete address-kind oracle for the closed classifier instance. -/
def ipKindSample : String → IPKind := fun _ => IPKind.ipv4

/-- Concrete CIDR-match oracle for the closed classifier instance: the
loopback literal matches the loopback range. -/
def cidrMatchSample : String → CIDRRange → Bool := fun hn c =>
  hn = "127.0.0.1" && c.base = "127.0.0.0"

/-- Concrete classifier state for the closed instance: one configured
loopback range, empty non-routable list. -/
def classifierState : ServiceState :=
  { parsedCIDRList := [⟨"127.0.0.0", 8⟩] }

/-- Closed instance of claim C3: extraction failure is routable, the IPv4
loopback literal is caught by the configured range, and a plain domain name
is routable. -/
theorem claim_C3_witness :
    isUrlRoutable ghSample isIPSample ipKindSample cidrMatchSample classifierState
      "not-a-url" = true ∧
    isUrlRoutable ghSample isIPSample ipKindSample cidrMatchSample classifierState
      "http://127.0.0.1/" = false ∧
    isUrlRoutable ghSample isIPSample ipKindSample cidrMatchSample classifierState
      "http://example.com/" = true :=
  ⟨(claim_C3_isUrlRoutable_decision ghSample isIPSample ipKindSample cidrMatchSample
      classifierState "not-a-url").1 rfl,
   ((claim_C3_isUrlRoutable_decision ghSample isIPSample ipKindSample cidrMatchSample
      classifierState "http://127.0.0.1/").2.2.2.2 "127.0.0.1" rfl (by decide) rfl
      (by decide)).mpr ⟨⟨"127.0.0.0", 8⟩, by simp [classifierState], rfl⟩,
   (claim_C3_isUrlRoutable_decision ghSample isIPSample ipKindSample cidrMatchSample
      classifierState "http://example.com/").2.2.1 "example.com" rfl (by decide) rfl⟩

/-- Claim C4: the non-routable list invariant after a mutation completes —
an `addHostname` together with the trimming performed by the scheduled
`updateStorage` flush leaves a list with no duplicates, of length at most
`NON_ROUTABLE_MAX_LENGTH`, whose surviving entries keep their insertion
order (the result is a suffix of the appended list). -/
theorem claim_C4_list_invariant (h : String) (s : ServiceState)
    (hnd : s.nonRoutableList.Nodup) :
    (updateStorage (addHostname h s)).nonRoutableList.Nodup ∧
    (updateStorage (addHostname h s)).nonRoutableList.length ≤ NON_ROUTABLE_MAX_LENGTH ∧
    (updateStorage (addHostname h s)).nonRoutableList <:+ (addHostname h s).nonRoutableList ∧
    (addHostname h s).nonRoutableList
      = (if h ∈ s.nonRoutableList then s.nonRoutableList else s.nonRoutableList ++ [h]) := by
  have hadd := addHostname_nodup h s hnd
  refine ⟨?_, ?_, ?_, ?_⟩
  · exact ((updateStorageTrim_suffix _).sublist).nodup hadd
  · exact updateStorageTrim_length _
  · exact updateStorageTrim_suffix _
  · unfold addHostname
    split <;> simp_all

/-- Closed instance of claim C4 at hostname "a.test" on the empty state. -/
theorem claim_C4_witness :
    (updateStorage (addHostname "a.test" {})).nonRoutableList.Nodup ∧
    (updateStorage (addHostname "a.test" {})).nonRoutableList.length ≤ NON_ROUTABLE_MAX_LENGTH ∧
    (updateStorage (addHostname "a.test" {})).nonRoutableList
      <:+ (addHostname "a.test" {}).nonRoutableList ∧
    (addHostname "a.test" ({} : ServiceState)).nonRoutableList
      = (if "a.test" ∈ ({} : ServiceState).nonRoutableList then
          ({} : ServiceState).nonRoutableList
         else ({} : ServiceState).nonRoutableList ++ ["a.test"]) :=
  claim_C4_list_invariant "a.test" {} List.nodup_nil

/-- Claim C5: capacity bound under overflow — feeding pairwise-distinct new
hostnames to `addHostname` builds the list in insertion order; when it has
overflowed the maximum, the flush removes the oldest entries in
`CLEAR_CAPACITY`-sized chunks until the length is at most
`NON_ROUTABLE_MAX_LENGTH`, so the survivors are the most-recently-added
hostnames in their original insertion order (a suffix, a whole-chunk drop). -/
theorem claim_C5_capacity_bound (hs : List String) (hnd : hs.Nodup)
    (hlen : NON_ROUTABLE_MAX_LENGTH < hs.length) :
    (hs.foldl (fun st h => addHostname h st) {}).nonRoutableList = hs ∧
    (updateStorage (hs.foldl (fun st h => addHostname h st) {})).nonRoutableList.length
      ≤ NON_ROUTABLE_MAX_LENGTH ∧
    (updateStorage (hs.foldl (fun st h => addHostname h st) {})).nonRoutableList <:+ hs ∧
    (∃ k, (updateStorage (hs.foldl (fun st h => addHostname h st) {})).nonRoutableList
      = hs.drop (CLEAR_CAPACITY * k)) := by
  have hfold : (hs.foldl (fun st h => addHostname h st) ({} : ServiceState)).nonRoutableList
      = hs := by
    have hbase := foldl_addHostname_list hs {} (by intro x hx; simp) hnd
    simpa using hbase
  refine ⟨hfold, updateStorageTrim_length _, ?_, ?_⟩
  · show updateStorageTrim (hs.foldl (fun st h => addHostname h st) {}).nonRoutableList <:+ hs
    rw [hfold]
    exact updateStorageTrim_suffix hs
  · obtain ⟨k, hk⟩ := updateStorageTrim_eq_drop hs
    refine ⟨k, ?_⟩
    show updateStorageTrim (hs.foldl (fun st h => addHostname h st) {}).nonRoutableList = _
    rw [hfold, hk]

/-- Concrete overflow input for the capacity-bound instance: 1001 pairwise
distinct hostnames (the hostname of index `n` is `n` repetitions of `a`). -/
def hsOverflow : List String :=
  (List.range 1001).map (fun n => String.mk (List.replicate n 'a'))

theorem hsOverflow_nodup : hsOverflow.Nodup := by
  refine List.Nodup.map ?_ (List.nodup_range 1001)
  intro m n hmn
  have hdata : List.replicate m 'a' = List.replicate n 'a' := congrArg String.data hmn
  have hlen := congrArg List.length hdata
  simpa using hlen

theorem hsOverflow_length : hsOverflow.length = 1001 := by
  simp [hsOverflow]

/-- Closed instance of claim C5: after 1001 distinct additions and a flush,
the list length is within the bound and the list is a suffix of the inserted
sequence. -/
theorem claim_C5_witness :
    (updateStorage (hsOverflow.foldl (fun st h => addHostname h st) {})).nonRoutableList.length
      ≤ NON_ROUTABLE_MAX_LENGTH ∧
    (updateStorage (hsOverflow.foldl (fun st h => addHostname h st) {})).nonRoutableList
      <:+ hsOverflow :=
  ⟨(claim_C5_capacity_bound hsOverflow hsOverflow_nodup
      (by rw [hsOverflow_length]; simp [NON_ROUTABLE_MAX_LENGTH])).2.1,
   (claim_C5_capacity_bound hsOverflow hsOverflow_nodup
      (by rw [hsOverflow_length]; simp [NON_ROUTABLE_MAX_LENGTH])).2.2.1⟩

/-- Claim C1 (amended): order independence of the correlation, provided the
transport-failure event carries a truthy tab id (nonzero) and a truthy url
(nonempty). For a hostname `h` with no pending entries, whichever order the
report and the transport-failure event arrive in, the first arrival commits
nothing and fires no retry, while the second commits exactly one
`addHostname(h)` invocation and fires exactly one retry: the first arrival's
lookup-then-delete consumed the pending entry, so the pair commits once. -/
theorem claim_C1_order_independence (gh : String → Option String)
    (now1 now2 : Nat) (d h : String) (details : RequestDetails) (s : ServiceState)
    (hd : d ≠ "") (hgh : gh d = some h) (hghu : gh details.url = some h)
    (htrig : details.error = some ERROR ∨ details.statusCode = some STATUS_CODE)
    (htype : details.requestType = MAIN_FRAME)
    (htab : details.tabId ≠ 0) (hurl : details.url ≠ "")
    (hw : mapHas h s.webRequestErrorHostnames = false)
    (hn : mapHas h s.nonRoutableHostnames = false) :
    (addHostnameCallCount h (handleNonRoutableDomains gh now1 d s).2 = 0 ∧
     tabsUpdateCount (handleNonRoutableDomains gh now1 d s).2 = 0 ∧
     addHostnameCallCount h
       (handleWebRequestErrors gh now2 details (handleNonRoutableDomains gh now1 d s).1).2 = 1 ∧
     tabsUpdateCount
       (handleWebRequestErrors gh now2 details (handleNonRoutableDomains gh now1 d s).1).2 = 1) ∧
    (addHostnameCallCount h (handleWebRequestErrors gh now1 details s).2 = 0 ∧
     tabsUpdateCount (handleWebRequestErrors gh now1 details s).2 = 0 ∧
     addHostnameCallCount h
       (handleNonRoutableDomains gh now2 d (handleWebRequestErrors gh now1 details s).1).2 = 1 ∧
     tabsUpdateCount
       (handleNonRoutableDomains gh now2 d (handleWebRequestErrors gh now1 details s).1).2 = 1) := by
  constructor
  · have hA1 := handleNonRoutableDomains_no_match gh now1 d h s hd hgh hw
    have hgetA : mapGet h (mapSet h { timeAdded := now1 } s.nonRoutableHostnames)
        = some ⟨now1, none, none⟩ := by
      rw [mapSet_of_not_has h _ s.nonRoutableHostnames hn]
      exact mapGet_append_self h _ s.nonRoutableHostnames hn
    have hA2 := handleWebRequestErrors_match gh now2 h details
      { s with nonRoutableHostnames := mapSet h { timeAdded := now1 } s.nonRoutableHostnames }
      ⟨now1, none, none⟩ htrig htype hghu hgetA
    refine ⟨?_, ?_, ?_, ?_⟩ <;>
      simp [hA1, hA2, addHostnameCallCount, tabsUpdateCount]
  · have hB1 := handleWebRequestErrors_no_match gh now1 h details s htrig htype hghu hn
    have hgetB : mapGet h (mapSet h ⟨now1, some details.tabId, some details.url⟩
          s.webRequestErrorHostnames)
        = some ⟨now1, some details.tabId, some details.url⟩ := by
      rw [mapSet_of_not_has h _ s.webRequestErrorHostnames hw]
      exact mapGet_append_self h _ s.webRequestErrorHostnames hw
    have htruthy : (truthyTabId (some details.tabId) && truthyUrl (some details.url)) = true := by
      simp [truthyTabId, truthyUrl, htab, hurl]
    have hB2 := handleNonRoutableDomains_match_truthy gh now2 d h
      { s with webRequestErrorHostnames :=
          mapSet h ⟨now1, some details.tabId, some details.url⟩ s.webRequestErrorHostnames }
      ⟨now1, some details.tabId, some details.url⟩ hd hgh hgetB htruthy
    refine ⟨?_, ?_, ?_, ?_⟩ <;>
      simp [hB1, hB2, addHostnameCallCount, tabsUpdateCount]

/-- Closed instance of amended claim C1: a main-frame 502 event for tab 7 on
"http://pend.test/" and a report for the same hostname, run in both orders
from the empty state, each commit exactly once in the second handler. -/
theorem claim_C1_witness :
    (addHostnameCallCount "pend.test"
       (handleNonRoutableDomains ghSample 0 "http://pend.test/" {}).2 = 0 ∧
     tabsUpdateCount (handleNonRoutableDomains ghSample 0 "http://pend.test/" {}).2 = 0 ∧
     addHostnameCallCount "pend.test"
       (handleWebRequestErrors ghSample 300 ⟨"http://pend.test/", "main_frame", 7, some 502, none⟩
         (handleNonRoutableDomains ghSample 0 "http://pend.test/" {}).1).2 = 1 ∧
     tabsUpdateCount
       (handleWebRequestErrors ghSample 300 ⟨"http://pend.test/", "main_frame", 7, some 502, none⟩
         (handleNonRoutableDomains ghSample 0 "http://pend.test/" {}).1).2 = 1) ∧
    (addHostnameCallCount "pend.test"
       (handleWebRequestErrors ghSample 0 ⟨"http://pend.test/", "main_frame", 7, some 502, none⟩
         {}).2 = 0 ∧
     tabsUpdateCount
       (handleWebRequestErrors ghSample 0 ⟨"http://pend.test/", "main_frame", 7, some 502, none⟩
         {}).2 = 0 ∧
     addHostnameCallCount "pend.test"
       (handleNonRoutableDomains ghSample 300 "http://pend.test/"
         (handleWebRequestErrors ghSample 0 ⟨"http://pend.test/", "main_frame", 7, some 502, none⟩
           {}).1).2 = 1 ∧
     tabsUpdateCount
       (handleNonRoutableDomains ghSample 300 "http://pend.test/"
         (handleWebRequestErrors ghSample 0 ⟨"http://pend.test/", "main_frame", 7, some 502, none⟩
           {}).1).2 = 1) :=
  claim_C1_order_independence ghSample 0 300 "http://pend.test/" "pend.test"
    ⟨"http://pend.test/", "main_frame", 7, some 502, none⟩ {}
    (by decide) rfl rfl (Or.inr rfl) rfl (by decide) (by decide) rfl rfl

/-- Claim C1 as stated is false on the code: when the transport-failure
event arrives first carrying the JS-falsy tab id `0` (main-frame, status
502, trigger satisfied) and the report for the same hostname follows
immediately (well inside the TTL window), no `addHostname` invocation and no
retry happens at all, instead of the claimed exactly-once commit: the report
handler's truthiness guard on the stored `tabId` rejects the consumed
pending entry. -/
theorem claim_C1_counterexample :
    addHostnameCallCount "pend0.test"
        ((handleWebRequestErrors ghSample 0
            ⟨"http://pend0.test/", "main_frame", 0, some 502, none⟩ {}).2 ++
         (handleNonRoutableDomains ghSample 0 "http://pend0.test/"
            (handleWebRequestErrors ghSample 0
              ⟨"http://pend0.test/", "main_frame", 0, some 502, none⟩ {}).1).2) = 0 ∧
    tabsUpdateCount
        ((handleWebRequestErrors ghSample 0
            ⟨"http://pend0.test/", "main_frame", 0, some 502, none⟩ {}).2 ++
         (handleNonRoutableDomains ghSample 0 "http://pend0.test/"
            (handleWebRequestErrors ghSample 0
              ⟨"http://pend0.test/", "main_frame", 0, some 502, none⟩ {}).1).2) = 0 := by
  decide
